import Mathlib

/-!
Shallow embedding of `dcl-http-prom-metrics` (src/lib.rs): a Prometheus
HTTP-metrics middleware for actix-web.  The collector owns a counter vector
`http_requests_total` and a histogram vector `http_requests_duration_seconds`
keyed by the label tuple (method, handler, code); the `metrics` middleware
resolves the handler label, short-circuits GET requests to the scrape
endpoint, and commits exactly one `update_metrics` call per request via the
`Drop` implementation of the `MetricLog` guard.

Modelling conventions:
* machine integers and status codes are `Nat`; instants are `Nat` nanoseconds;
* `IntCounterVec` is a function `LabelValues → Nat`, `HistogramVec` keeps the
  raw list of observed durations (the claims under study do not touch bucket
  arithmetic);
* Rust `String` values produced by the text encoder are represented by their
  UTF-8 byte sequence (`List Nat`), which is exactly what a Rust `String` is;
* a Rust panic (an `unwrap` failure) is represented as an explicit outcome
  constructor, never as a returned error value of the embedded function;
* external collaborators (the prometheus text encoder, the downstream actix
  service) enter the model as explicit inputs: the encoder outcome and the
  downstream outcome are parameters of the embedded middleware.
-/

namespace DclHttpPromMetrics

/-- HTTP method (model of `actix_web::http::Method`; the standard verbs
suffice for every claim, which only distinguish GET from the rest). -/
inductive Method where
  | GET
  | POST
  | PUT
  | DELETE
  | HEAD
  | OPTIONS
  | PATCH
deriving DecidableEq, Repr

/-- `Method::as_str()`. -/
def Method.as_str : Method → String
  | .GET => "GET"
  | .POST => "POST"
  | .PUT => "PUT"
  | .DELETE => "DELETE"
  | .HEAD => "HEAD"
  | .OPTIONS => "OPTIONS"
  | .PATCH => "PATCH"

/-- The ordered label tuple `[method, handler, code]` used as
`label_values` in `update_metrics`. -/
structure LabelValues where
  method : String
  handler : String
  code : String
deriving DecidableEq, Repr

/-- The two metric series owned by the collector: the `IntCounterVec`
`http_requests_total` (a counter per label tuple) and the `HistogramVec`
`http_requests_duration_seconds` (modelled as the list of observed durations
in nanoseconds per label tuple, most recent first). -/
structure MetricStore where
  http_requests_total : LabelValues → Nat
  http_requests_duration_seconds : LabelValues → List Nat

/-- Freshly constructed series: every counter zero, no observations. -/
def MetricStore.empty : MetricStore :=
  { http_requests_total := fun _ => 0
    http_requests_duration_seconds := fun _ => [] }

/-- A metric family as seen by the registry: `prometheus::Registry::register`
rejects a second collector with an already-registered name. -/
structure MetricFamily where
  name : String
  labelNames : List String
deriving DecidableEq, Repr

/-- Model of `prometheus::Registry`: the list of registered families. -/
structure Registry where
  collectors : List MetricFamily
deriving DecidableEq, Repr

/-- `Registry::register`: fails with `AlreadyReg` when a family with the same
name is already registered, otherwise appends the family. -/
def Registry.register (r : Registry) (m : MetricFamily) : Except String Registry :=
  if m.name ∈ r.collectors.map MetricFamily.name then
    Except.error "duplicate metrics collector registration attempted"
  else
    Except.ok { collectors := r.collectors ++ [m] }

/-- `HttpMetricsCollector`: registry, the two series handles and the scrape
endpoint path. -/
structure HttpMetricsCollector where
  registry : Registry
  store : MetricStore
  endpoint : String

/-- `HttpMetricsCollector::update_metrics`: computes the elapsed duration
from the stored timestamp (here: `now - timestamp` nanoseconds), observes it
on `http_requests_duration_seconds` and increments `http_requests_total`,
both at the label tuple `[method.as_str(), handler, code.as_str()]`. -/
def HttpMetricsCollector.update_metrics (c : HttpMetricsCollector)
    (method : Method) (handler : String) (code : Nat) (timestamp now : Nat) :
    HttpMetricsCollector :=
  let label_values : LabelValues := ⟨method.as_str, handler, toString code⟩
  let duration := now - timestamp
  { c with
    store :=
      { http_requests_duration_seconds := fun l =>
          if l = label_values then duration :: c.store.http_requests_duration_seconds l
          else c.store.http_requests_duration_seconds l
        http_requests_total := fun l =>
          if l = label_values then c.store.http_requests_total l + 1
          else c.store.http_requests_total l } }

/-- `HttpMetricsCollector::is_endpoint`:
`path == self.endpoint && method == Method::GET`. -/
def HttpMetricsCollector.is_endpoint (c : HttpMetricsCollector)
    (path : String) (method : Method) : Bool :=
  path == c.endpoint && method == Method.GET

/-- UTF-8 well-formedness of a byte sequence, the check performed by Rust
`String::from_utf8` (RFC 3629: no continuation-lead bytes, no overlong
encodings, no surrogates, no code points above U+10FFFF). -/
def validUtf8 : List Nat → Bool
  | [] => true
  | b :: bs =>
    if b < 0x80 then validUtf8 bs
    else if b < 0xC2 then false
    else if b < 0xE0 then
      match bs with
      | b1 :: bs1 => (0x80 ≤ b1 && b1 < 0xC0) && validUtf8 bs1
      | [] => false
    else if b < 0xF0 then
      match bs with
      | b1 :: b2 :: bs2 =>
        (if b = 0xE0 then 0xA0 ≤ b1 && b1 < 0xC0
         else if b = 0xED then 0x80 ≤ b1 && b1 < 0xA0
         else 0x80 ≤ b1 && b1 < 0xC0) &&
        (0x80 ≤ b2 && b2 < 0xC0) && validUtf8 bs2
      | _ => false
    else if b < 0xF5 then
      match bs with
      | b1 :: b2 :: b3 :: bs3 =>
        (if b = 0xF0 then 0x90 ≤ b1 && b1 < 0xC0
         else if b = 0xF4 then 0x80 ≤ b1 && b1 < 0x90
         else 0x80 ≤ b1 && b1 < 0xC0) &&
        (0x80 ≤ b2 && b2 < 0xC0) && (0x80 ≤ b3 && b3 < 0xC0) && validUtf8 bs3
      | _ => false
    else false

/-- `HttpMetricsCollector::collect`: runs the prometheus `TextEncoder` over
the gathered registry into a byte buffer, returning `Err(err.to_string())` if
encoding fails, `Err("Metrics corrupted")` if the buffer is not valid UTF-8,
and `Ok(text)` otherwise. The encoder is an external collaborator, so its
outcome (`Err` message, or the encoded byte buffer) is the parameter
`encodeResult`; the returned text is represented by its UTF-8 bytes. -/
def collect (encodeResult : Except String (List Nat)) : Except String (List Nat) :=
  match encodeResult with
  | Except.error err => Except.error err
  | Except.ok buffer =>
    if validUtf8 buffer then Except.ok buffer
    else Except.error "Metrics corrupted"

/-- `HttpMetricsCollectorBuilder`: registry, optional endpoint override and
histogram bucket boundaries (kept abstract as strings of the source literals
are irrelevant to the claims; the field records arity and order only). -/
structure HttpMetricsCollectorBuilder where
  registry : Registry
  endpoint : Option String
  buckets : List Rat

/-- `DEFAULT_BUCKETS` from the source, in seconds. -/
def DEFAULT_BUCKETS : List Rat :=
  [5/1000, 1/100, 25/1000, 5/100, 1/10, 1/4, 1/2, 1, 5/2, 5, 10, 20, 30, 60]

/-- `HttpMetricsCollectorBuilder::new`. -/
def HttpMetricsCollectorBuilder.new : HttpMetricsCollectorBuilder :=
  { registry := { collectors := [] }, endpoint := none, buckets := DEFAULT_BUCKETS }

/-- The fixed label names `["method", "handler", "code"]`. -/
def label_names : List String := ["method", "handler", "code"]

/-- `HttpMetricsCollectorBuilder::build`: registers `http_requests_total`
and `http_requests_duration_seconds` (fixed names, fixed label names) in the
builder registry; each registration result is `unwrap`ped, so a collision
panics — modelled by `Except.error` standing for the panic, since the Rust
function has no error return type at all. On success the collector holds the
extended registry, fresh series and the endpoint (default `/metrics`). -/
def HttpMetricsCollectorBuilder.build (b : HttpMetricsCollectorBuilder) :
    Except String HttpMetricsCollector :=
  let http_requests_total : MetricFamily := ⟨"http_requests_total", label_names⟩
  let http_requests_duration_seconds : MetricFamily :=
    ⟨"http_requests_duration_seconds", label_names⟩
  match b.registry.register http_requests_total with
  | Except.error e => Except.error e
  | Except.ok r1 =>
    match r1.register http_requests_duration_seconds with
    | Except.error e => Except.error e
    | Except.ok r2 =>
      Except.ok
        { registry := r2
          store := MetricStore.empty
          endpoint := b.endpoint.getD "/metrics" }

/-- The request-side inputs the middleware reads: path, method, the matched
route pattern (if the router produced one) and the resource map predicate
`ResourceMap::has_resource`. -/
structure Request where
  path : String
  method : Method
  match_pattern : Option String
  has_resource : String → Bool

/-- A downstream response: status code and body bytes. -/
structure Response where
  status : Nat
  body : List Nat
deriving DecidableEq, Repr

/-- A downstream failure (`actix_web::Error`): its identity plus the status
code of `err.error_response()`. -/
structure AppError where
  status : Nat
  payload : String
deriving DecidableEq, Repr

/-- The `MetricLog` guard: the arguments its `Drop` impl passes to
`update_metrics` (the shared collector reference is left implicit). -/
structure MetricLog where
  handler : String
  method : Method
  code : Nat
  timestamp : Nat
deriving DecidableEq, Repr

/-- `Drop for MetricLog`: committing one guard into the collector calls
`update_metrics` with the guard fields. -/
def MetricLog.drop (log : MetricLog) (c : HttpMetricsCollector) (now : Nat) :
    HttpMetricsCollector :=
  c.update_metrics log.method log.handler log.code log.timestamp now

/-- How a request leaves the middleware: a panic on the missing-collector
`unwrap`, a panic on the scrape-render `unwrap`, a response, or a propagated
downstream failure. -/
inductive Outcome where
  | panicMissingCollector
  | panicRenderFailure (msg : String)
  | ok (res : Response)
  | err (e : AppError)
deriving DecidableEq, Repr

/-- Observable result of one middleware pass: the outcome, the guards
committed by `Drop` (in drop order), and how often `next.call` ran. -/
structure InterceptResult where
  outcome : Outcome
  recordings : List MetricLog
  downstream_calls : Nat

/-- Handler-label resolution in `metrics`: the matched route pattern if any,
else the raw request path; kept only if the resource map knows it, else the
wildcard `"*"` (the `// 404` branch). -/
def handlerLabel (req : Request) : String :=
  let path := req.match_pattern.getD req.path
  if req.has_resource path then path else "*"

/-- The `metrics` middleware body (`from_fn` closure). `collectorOpt` is the
`app_data` lookup result — `none` panics on the `unwrap` before anything
else. Otherwise a `MetricLog` guard is created with default code 200
(`StatusCode::OK`); a GET on the scrape endpoint renders via `collect`
(whose `unwrap` panics on render failure — the guard is still dropped during
unwind) and never calls `next`; any other request runs `next` once, the
guard code is set to the response status or to the failure status, and the
downstream result is returned unchanged. Every constructed guard is dropped
exactly once at scope exit, which is where `update_metrics` fires. -/
def metrics (collectorOpt : Option HttpMetricsCollector) (req : Request)
    (encodeResult : Except String (List Nat))
    (next : Except AppError Response) (timestamp : Nat) : InterceptResult :=
  match collectorOpt with
  | none => { outcome := Outcome.panicMissingCollector, recordings := [], downstream_calls := 0 }
  | some collector =>
    let log : MetricLog :=
      { handler := handlerLabel req, method := req.method, code := 200, timestamp := timestamp }
    if collector.is_endpoint req.path req.method then
      match collect encodeResult with
      | Except.ok text =>
        { outcome := Outcome.ok { status := 200, body := text }
          recordings := [log], downstream_calls := 0 }
      | Except.error msg =>
        { outcome := Outcome.panicRenderFailure msg
          recordings := [log], downstream_calls := 0 }
    else
      match next with
      | Except.ok res =>
        { outcome := Outcome.ok res
          recordings := [{ log with code := res.status }], downstream_calls := 1 }
      | Except.error e =>
        { outcome := Outcome.err e
          recordings := [{ log with code := e.status }], downstream_calls := 1 }

/-- Replaying a sequence of `update_metrics` calls with one label tuple and a
list of (timestamp, now) instant pairs. -/
def applyUpdates (c : HttpMetricsCollector) (method : Method) (handler : String)
    (code : Nat) (times : List (Nat × Nat)) : HttpMetricsCollector :=
  times.foldl (fun acc t => acc.update_metrics method handler code t.1 t.2) c

/-! Concrete fixtures used by witnesses and counterexamples. -/

/-- A freshly built collector with the default `/metrics` endpoint. -/
def mc0 : HttpMetricsCollector :=
  { registry := { collectors := [] }, store := MetricStore.empty, endpoint := "/metrics" }

/-- A GET request to `/metrics` (a scrape request). -/
def reqScrape : Request :=
  { path := "/metrics", method := Method.GET, match_pattern := none
    has_resource := fun _ => false }

/-- A GET request to an unknown path: no matched pattern, and the resource
map recognizes nothing. -/
def reqUnmatched : Request :=
  { path := "/unknown", method := Method.GET, match_pattern := none
    has_resource := fun _ => false }

/-! Helper lemmas shared by several claims. -/

/-- Whatever branch the middleware takes with a collector installed, the
single committed guard carries the resolved handler label. -/
theorem metrics_recordings_handler (c : HttpMetricsCollector) (req : Request)
    (enc : Except String (List Nat)) (next : Except AppError Response) (ts : Nat) :
    (metrics (some c) req enc next ts).recordings.map MetricLog.handler
      = [handlerLabel req] := by
  cases hs : c.is_endpoint req.path req.method <;>
    cases henc : collect enc <;> cases next <;> simp [metrics, hs, henc]

/-- Unfolding `applyUpdates` on nil. -/
theorem applyUpdates_nil (c : HttpMetricsCollector) (m : Method) (h : String)
    (code : Nat) : applyUpdates c m h code [] = c := rfl

/-- Unfolding `applyUpdates` on cons. -/
theorem applyUpdates_cons (c : HttpMetricsCollector) (m : Method) (h : String)
    (code : Nat) (t : Nat × Nat) (ts : List (Nat × Nat)) :
    applyUpdates c m h code (t :: ts)
      = applyUpdates (c.update_metrics m h code t.1 t.2) m h code ts := rfl

/-- `applyUpdates` over an appended list composes. -/
theorem applyUpdates_append (c : HttpMetricsCollector) (m : Method) (h : String)
    (code : Nat) (l1 l2 : List (Nat × Nat)) :
    applyUpdates c m h code (l1 ++ l2)
      = applyUpdates (applyUpdates c m h code l1) m h code l2 :=
  List.foldl_append _ _ _ _

/-- One `update_metrics` call increments the counter of its own label tuple
by exactly one. -/
theorem update_metrics_total_same (c : HttpMetricsCollector) (m : Method)
    (h : String) (code : Nat) (t n : Nat) :
    (c.update_metrics m h code t n).store.http_requests_total
        ⟨m.as_str, h, toString code⟩
      = c.store.http_requests_total ⟨m.as_str, h, toString code⟩ + 1 := by
  simp [HttpMetricsCollector.update_metrics]

/-- One `update_metrics` call never decreases any counter. -/
theorem update_metrics_total_mono (c : HttpMetricsCollector) (m : Method)
    (h : String) (code : Nat) (t n : Nat) (l : LabelValues) :
    c.store.http_requests_total l
      ≤ (c.update_metrics m h code t n).store.http_requests_total l := by
  simp only [HttpMetricsCollector.update_metrics]
  split <;> omega

/-- Replaying a list of updates adds exactly the list length to the counter
of the updated label tuple. -/
theorem applyUpdates_total (c : HttpMetricsCollector) (m : Method) (h : String)
    (code : Nat) (times : List (Nat × Nat)) :
    (applyUpdates c m h code times).store.http_requests_total
        ⟨m.as_str, h, toString code⟩
      = c.store.http_requests_total ⟨m.as_str, h, toString code⟩ + times.length := by
  induction times generalizing c with
  | nil => simp [applyUpdates_nil]
  | cons t ts ih =>
    rw [applyUpdates_cons, ih, update_metrics_total_same]
    simp
    omega

/-- Replaying a list of updates never decreases any counter. -/
theorem applyUpdates_total_mono (c : HttpMetricsCollector) (m : Method)
    (h : String) (code : Nat) (times : List (Nat × Nat)) (l : LabelValues) :
    c.store.http_requests_total l
      ≤ (applyUpdates c m h code times).store.http_requests_total l := by
  induction times generalizing c with
  | nil => exact Nat.le_refl _
  | cons t ts ih =>
    rw [applyUpdates_cons]
    exact Nat.le_trans (update_metrics_total_mono c m h code t.1 t.2 l) (ih _)

/-! Claim theorems. -/

/-- Claim C1: with a collector installed, every pass through the middleware
commits exactly one guard recording (one `update_metrics` call at `Drop`),
on every exit path: scrape success, scrape render panic, downstream success
and downstream failure. -/
theorem metrics_records_exactly_once (c : HttpMetricsCollector) (req : Request)
    (enc : Except String (List Nat)) (next : Except AppError Response) (ts : Nat) :
    (metrics (some c) req enc next ts).recordings.length = 1 := by
  cases hs : c.is_endpoint req.path req.method <;>
    cases henc : collect enc <;> cases next <;> simp [metrics, hs, henc]

/-- Claim C2: `is_endpoint path method` is true exactly when `path` equals
the configured endpoint and the method is GET; hence it is false for the
same path with any non-GET method and for any other path with GET. -/
theorem is_endpoint_iff (c : HttpMetricsCollector) (path : String) (m : Method) :
    c.is_endpoint path m = true ↔ (path = c.endpoint ∧ m = Method.GET) := by
  simp [HttpMetricsCollector.is_endpoint]

/-- Claim C3: on a scrape request the downstream handler is never invoked,
and whenever rendering succeeds the middleware answers directly with the
rendered metrics text under status 200. -/
theorem scrape_shortcut (c : HttpMetricsCollector) (req : Request)
    (enc : Except String (List Nat)) (next : Except AppError Response) (ts : Nat)
    (hs : c.is_endpoint req.path req.method = true) :
    (metrics (some c) req enc next ts).downstream_calls = 0 ∧
      ∀ text, collect enc = Except.ok text →
        (metrics (some c) req enc next ts).outcome
          = Outcome.ok { status := 200, body := text } := by
  cases henc : collect enc <;> simp [metrics, hs, henc]

/-- Witness for C3 at a concrete scrape request. -/
theorem scrape_shortcut_witness :
    mc0.is_endpoint reqScrape.path reqScrape.method = true ∧
    (metrics (some mc0) reqScrape (Except.ok [104, 105])
        (Except.ok { status := 204, body := [] }) 0).downstream_calls = 0 ∧
    (metrics (some mc0) reqScrape (Except.ok [104, 105])
        (Except.ok { status := 204, body := [] }) 0).outcome
      = Outcome.ok { status := 200, body := [104, 105] } :=
  ⟨by decide,
   (scrape_shortcut mc0 reqScrape (Except.ok [104, 105])
      (Except.ok { status := 204, body := [] }) 0 (by decide)).1,
   (scrape_shortcut mc0 reqScrape (Except.ok [104, 105])
      (Except.ok { status := 204, body := [] }) 0 (by decide)).2 [104, 105] rfl⟩

/-- Claim C4: on a non-scrape request whose downstream handling fails, the
failure is re-propagated unchanged and the single committed guard carries
the status code extracted from the failure. -/
theorem downstream_failure_observed (c : HttpMetricsCollector) (req : Request)
    (enc : Except String (List Nat)) (e : AppError) (ts : Nat)
    (hs : c.is_endpoint req.path req.method = false) :
    (metrics (some c) req enc (Except.error e) ts).outcome = Outcome.err e ∧
    (metrics (some c) req enc (Except.error e) ts).recordings
      = [{ handler := handlerLabel req, method := req.method
           code := e.status, timestamp := ts }] := by
  simp [metrics, hs]

/-- Witness for C4 at a concrete failing request. -/
theorem downstream_failure_observed_witness :
    mc0.is_endpoint reqUnmatched.path reqUnmatched.method = false ∧
    (metrics (some mc0) reqUnmatched (Except.ok [])
        (Except.error { status := 500, payload := "boom" }) 7).outcome
      = Outcome.err { status := 500, payload := "boom" } ∧
    (metrics (some mc0) reqUnmatched (Except.ok [])
        (Except.error { status := 500, payload := "boom" }) 7).recordings
      = [{ handler := "*", method := Method.GET, code := 500, timestamp := 7 }] :=
  ⟨by decide,
   (downstream_failure_observed mc0 reqUnmatched (Except.ok [])
      { status := 500, payload := "boom" } 7 (by decide)).1,
   (downstream_failure_observed mc0 reqUnmatched (Except.ok [])
      { status := 500, payload := "boom" } 7 (by decide)).2⟩

/-- Claim C5: starting from a zero counter for a label tuple, N recordings
with that tuple leave `http_requests_total` at exactly N, and the counter
never decreases along any prefix of the sequence. -/
theorem request_count_exact_and_monotone (c : HttpMetricsCollector) (m : Method)
    (h : String) (code : Nat) (times : List (Nat × Nat))
    (h0 : c.store.http_requests_total ⟨m.as_str, h, toString code⟩ = 0) :
    (applyUpdates c m h code times).store.http_requests_total
        ⟨m.as_str, h, toString code⟩ = times.length ∧
    ∀ pre suf, times = pre ++ suf →
      (applyUpdates c m h code pre).store.http_requests_total
          ⟨m.as_str, h, toString code⟩
        ≤ (applyUpdates c m h code times).store.http_requests_total
            ⟨m.as_str, h, toString code⟩ := by
  constructor
  · rw [applyUpdates_total, h0, Nat.zero_add]
  · rintro pre suf rfl
    rw [applyUpdates_append]
    exact applyUpdates_total_mono _ m h code suf _

/-- Witness for C5: three recordings of the same tuple yield count 3, and
the count after the first recording is at most the final count. -/
theorem request_count_exact_and_monotone_witness :
    mc0.store.http_requests_total ⟨"GET", "/users", "200"⟩ = 0 ∧
    (applyUpdates mc0 Method.GET "/users" 200 [(0, 5), (1, 7), (2, 9)]
       ).store.http_requests_total ⟨"GET", "/users", "200"⟩ = 3 ∧
    (applyUpdates mc0 Method.GET "/users" 200 [(0, 5)]
       ).store.http_requests_total ⟨"GET", "/users", "200"⟩
      ≤ (applyUpdates mc0 Method.GET "/users" 200 [(0, 5), (1, 7), (2, 9)]
       ).store.http_requests_total ⟨"GET", "/users", "200"⟩ :=
  ⟨rfl,
   (request_count_exact_and_monotone mc0 Method.GET "/users" 200
      [(0, 5), (1, 7), (2, 9)] rfl).1,
   (request_count_exact_and_monotone mc0 Method.GET "/users" 200
      [(0, 5), (1, 7), (2, 9)] rfl).2 [(0, 5)] [(1, 7), (2, 9)] rfl⟩

/-- Claim C6: `collect` returns the rendered text when encoding succeeds and
the buffer is valid UTF-8, propagates the encoder's descriptive failure
message when encoding fails, returns the distinct "Metrics corrupted"
failure when the buffer is not valid UTF-8, and the two failure kinds are
distinguishable whenever the encoder message is not that literal. -/
theorem collect_cases (buf : List Nat) (msg : String) :
    (validUtf8 buf = true → collect (Except.ok buf) = Except.ok buf) ∧
    collect (Except.error msg) = Except.error msg ∧
    (validUtf8 buf = false →
      collect (Except.ok buf) = Except.error "Metrics corrupted") ∧
    (validUtf8 buf = false → msg ≠ "Metrics corrupted" →
      collect (Except.error msg) ≠ collect (Except.ok buf)) := by
  refine ⟨fun hv => by simp [collect, hv], rfl,
    fun hv => by simp [collect, hv], fun hv hm => by simp [collect, hv, hm]⟩

/-- Witness for C6: a valid buffer, an encoder failure, and an invalid
buffer, with the two failure kinds distinct. -/
theorem collect_cases_witness :
    validUtf8 [104, 105] = true ∧
    collect (Except.ok [104, 105]) = Except.ok [104, 105] ∧
    collect (Except.error "protobuf encode error") = Except.error "protobuf encode error" ∧
    validUtf8 [255] = false ∧
    collect (Except.ok [255]) = Except.error "Metrics corrupted" ∧
    collect (Except.error "protobuf encode error") ≠ collect (Except.ok [255]) :=
  ⟨by decide,
   (collect_cases [104, 105] "protobuf encode error").1 (by decide),
   (collect_cases [104, 105] "protobuf encode error").2.1,
   by decide,
   (collect_cases [255] "protobuf encode error").2.2.1 (by decide),
   (collect_cases [255] "protobuf encode error").2.2.2 (by decide) (by decide)⟩

/-- Counterexample to claim C7 as stated: a request with no matched route
pattern whose raw path is unknown to the resource map is recorded under the
wildcard label, not under the raw request path. -/
theorem raw_path_label_counterexample :
    reqUnmatched.match_pattern = none ∧
    (metrics (some mc0) reqUnmatched (Except.ok [])
        (Except.ok { status := 200, body := [] }) 0).recordings.map MetricLog.handler
      ≠ [reqUnmatched.path] := by
  refine ⟨rfl, ?_⟩
  decide

/-- Claim C7 (amended): with no matched route pattern the middleware falls
back to the raw request path as the candidate label; the recorded handler
label is the raw path when the resource map recognizes it and the wildcard
`"*"` otherwise, and label resolution never changes the request outcome. -/
theorem no_pattern_fallback (c : HttpMetricsCollector) (req : Request)
    (enc : Except String (List Nat)) (next : Except AppError Response) (ts : Nat)
    (hp : req.match_pattern = none) :
    (metrics (some c) req enc next ts).recordings.map MetricLog.handler
      = [if req.has_resource req.path then req.path else "*"] ∧
    ∀ (p : Option String) (f : String → Bool),
      (metrics (some c) { req with match_pattern := p, has_resource := f }
          enc next ts).outcome
        = (metrics (some c) req enc next ts).outcome := by
  constructor
  · rw [metrics_recordings_handler]
    simp [handlerLabel, hp]
  · intro p f
    cases hs : c.is_endpoint req.path req.method <;>
      cases henc : collect enc <;> cases next <;> simp [metrics, hs, henc]

/-- Witness for the amended C7 at a concrete pattern-less request. -/
theorem no_pattern_fallback_witness :
    reqUnmatched.match_pattern = none ∧
    (metrics (some mc0) reqUnmatched (Except.ok [])
        (Except.ok { status := 200, body := [] }) 0).recordings.map MetricLog.handler
      = [if reqUnmatched.has_resource reqUnmatched.path then reqUnmatched.path else "*"] ∧
    (metrics (some mc0)
        { reqUnmatched with match_pattern := some "/users", has_resource := fun _ => true }
        (Except.ok []) (Except.ok { status := 200, body := [] }) 0).outcome
      = (metrics (some mc0) reqUnmatched (Except.ok [])
          (Except.ok { status := 200, body := [] }) 0).outcome :=
  ⟨rfl,
   (no_pattern_fallback mc0 reqUnmatched (Except.ok [])
      (Except.ok { status := 200, body := [] }) 0 rfl).1,
   (no_pattern_fallback mc0 reqUnmatched (Except.ok [])
      (Except.ok { status := 200, body := [] }) 0 rfl).2 (some "/users") (fun _ => true)⟩

/-- Claim C8: when the candidate path (matched pattern, else raw path) is
not a registered resource, the recorded handler label is the fixed wildcard
`"*"`, never the raw path. -/
theorem unmatched_route_wildcard (c : HttpMetricsCollector) (req : Request)
    (enc : Except String (List Nat)) (next : Except AppError Response) (ts : Nat)
    (hr : req.has_resource (req.match_pattern.getD req.path) = false) :
    (metrics (some c) req enc next ts).recordings.map MetricLog.handler = ["*"] := by
  rw [metrics_recordings_handler]
  simp [handlerLabel, hr]

/-- Witness for C8 at a concrete unmatched request. -/
theorem unmatched_route_wildcard_witness :
    reqUnmatched.has_resource (reqUnmatched.match_pattern.getD reqUnmatched.path) = false ∧
    (metrics (some mc0) reqUnmatched (Except.ok [])
        (Except.ok { status := 200, body := [] }) 0).recordings.map MetricLog.handler
      = ["*"] :=
  ⟨rfl,
   unmatched_route_wildcard mc0 reqUnmatched (Except.ok [])
     (Except.ok { status := 200, body := [] }) 0 rfl⟩

/-- Claim C9: `build` registers exactly the two fixed family names with the
fixed label names `method, handler, code`; when either name is already
registered, the `unwrap` panics (modelled by the error outcome, since the
Rust function cannot return an error value) instead of recovering. -/
theorem build_registration (b : HttpMetricsCollectorBuilder) :
    (("http_requests_total" ∉ b.registry.collectors.map MetricFamily.name ∧
      "http_requests_duration_seconds" ∉ b.registry.collectors.map MetricFamily.name) →
      b.build.toOption.map (fun c => (c.registry, c.endpoint))
        = some ({ collectors := b.registry.collectors ++
            [{ name := "http_requests_total", labelNames := label_names },
             { name := "http_requests_duration_seconds", labelNames := label_names }] },
            b.endpoint.getD "/metrics")) ∧
    ("http_requests_total" ∈ b.registry.collectors.map MetricFamily.name →
      b.build.toOption = none) ∧
    ("http_requests_duration_seconds" ∈ b.registry.collectors.map MetricFamily.name →
      b.build.toOption = none) := by
  refine ⟨?_, ?_, ?_⟩
  · rintro ⟨h1, h2⟩
    simp [HttpMetricsCollectorBuilder.build, Registry.register, h1, h2, Except.toOption]
  · intro h1
    simp [HttpMetricsCollectorBuilder.build, Registry.register, h1, Except.toOption]
  · intro h2
    by_cases h1 : "http_requests_total" ∈ b.registry.collectors.map MetricFamily.name
    · simp [HttpMetricsCollectorBuilder.build, Registry.register, h1, Except.toOption]
    · simp [HttpMetricsCollectorBuilder.build, Registry.register, h1, h2, Except.toOption]

/-- Witness for C9: a fresh builder succeeds with the two fixed families,
and builders whose registry already holds either fixed name panic. -/
theorem build_registration_witness :
    HttpMetricsCollectorBuilder.new.build.toOption.map (fun c => (c.registry, c.endpoint))
      = some ({ collectors :=
          [{ name := "http_requests_total", labelNames := label_names },
           { name := "http_requests_duration_seconds", labelNames := label_names }] },
          "/metrics") ∧
    (HttpMetricsCollectorBuilder.mk
        { collectors := [{ name := "http_requests_total", labelNames := [] }] } none []
      ).build.toOption = none ∧
    (HttpMetricsCollectorBuilder.mk
        { collectors := [{ name := "http_requests_duration_seconds", labelNames := [] }] } none []
      ).build.toOption = none :=
  ⟨(build_registration HttpMetricsCollectorBuilder.new).1 (by decide),
   (build_registration _).2.1 (by decide),
   (build_registration _).2.2 (by decide)⟩

/-- Claim C10: when no collector was installed in the application data, the
middleware panics on the `unwrap` before any branch of request handling: no
recording is committed and the downstream handler is never called. -/
theorem metrics_missing_collector_panics (req : Request)
    (enc : Except String (List Nat)) (next : Except AppError Response) (ts : Nat) :
    metrics none req enc next ts
      = { outcome := Outcome.panicMissingCollector, recordings := []
          downstream_calls := 0 } := rfl

end DclHttpPromMetrics
